import Mathlib

/-!
Shallow embedding of the eventnative source-synchronization core:
the driver factory (drivers/factory.go), the source registry and
hot-reload path, the Sync orchestrator, status/log retrieval and the
pool worker (sources service), and the Granularity formatter.

External collaborators (destinations service, distributed lock,
goroutine pool, meta storage, driver constructors) are modelled as
pure oracles supplied as parameters; each operation returns, besides
its result, an explicit trace of the side effects it performed.
-/

deriving instance DecidableEq for Except

namespace EventNative

/-- Opaque driver handle (drivers.Driver), produced by a registered constructor. -/
abbrev Driver := Nat

/-- Opaque destination storage handle (events.Storage). -/
abbrev Storage := String

/-- Opaque distributed-lock handle returned by MonitorKeeper.Lock. -/
abbrev LockHandle := Nat

/-- Opaque handle for the meta.Storage reference carried inside a SyncTask. -/
abbrev MetaStorageRef := Nat

/-- A dynamically-typed value sitting in a decoded configuration map
(Go interface value): either a string or something else. -/
inductive GoVal where
  | str (s : String)
  | other
deriving DecidableEq, Repr

/-- A decoded configuration map with string keys (cast.ToStringMap result). -/
abbrev GoMap := List (String × GoVal)

/-- getStringParameter from drivers/factory.go: returns the value under
`parameterName` when present and a string, and the empty string otherwise. -/
def getStringParameter (dict : GoMap) (parameterName : String) : String :=
  match dict.lookup parameterName with
  | some (GoVal.str s) => s
  | _ => ""

/-- A raw collection entry of a SourceConfig (Go interface value):
a bare string name, a structured map, or any other shape. -/
inductive CollectionValue where
  | str (s : String)
  | map (m : GoMap)
  | other
deriving DecidableEq, Repr

/-- drivers.Collection after normalization. -/
structure Collection where
  Name : String
  «Type» : String
  TableName : String
  Parameters : Option GoVal
deriving DecidableEq, Repr

/-- drivers.SourceConfig. -/
structure SourceConfig where
  «Type» : String
  Destinations : List String
  Collections : List CollectionValue
  Config : GoMap
deriving DecidableEq, Repr

/-- Field name constants of drivers/factory.go. -/
def collectionNameField : String := "name"

/-- Field name constant for a collection's table-name override. -/
def collectionTableNameField : String := "table_name"

/-- Field name constant for a collection's parameter map. -/
def collectionParametersField : String := "parameters"

/-- The structured error outcomes of drivers.Create. -/
inductive CreateErr where
  | missingCollectionName
  | badCollectionFormat
  | emptyCollections
  | emptyDestinations
  | unknownSourceType
  | driverCreation (driverType collectionName msg : String)
deriving DecidableEq, Repr

/-- Normalization of one raw collection entry (the switch inside the
collection loop of drivers.Create): a bare string becomes a collection
whose type equals its name; a structured map must carry a non-empty
name, with the type defaulting to the name; any other shape is rejected. -/
def parseCollection : CollectionValue → Except CreateErr Collection
  | CollectionValue.str s => Except.ok ⟨s, s, "", none⟩
  | CollectionValue.map m =>
    let collectionName := getStringParameter m collectionNameField
    if collectionName = "" then Except.error CreateErr.missingCollectionName
    else
      let collectionType := getStringParameter m "type"
      let collectionType := if collectionType = "" then collectionName else collectionType
      Except.ok ⟨collectionName, collectionType,
        getStringParameter m collectionTableNameField, m.lookup collectionParametersField⟩
  | CollectionValue.other => Except.error CreateErr.badCollectionFormat

/-- The collection loop of drivers.Create: normalizes every entry in
order, aborting at the first failing entry. -/
def parseCollections : List CollectionValue → Except CreateErr (List Collection)
  | [] => Except.ok []
  | v :: rest =>
    match parseCollection v with
    | Except.error e => Except.error e
    | Except.ok c =>
      match parseCollections rest with
      | Except.error e => Except.error e
      | Except.ok cs => Except.ok (c :: cs)

/-- A registered driver constructor (the context argument, which is
threaded through unchanged and never inspected, is omitted). -/
abbrev DriverConstructor := SourceConfig → Collection → Except String Driver

/-- Insertion into a string-keyed association map with Go map semantics:
an existing binding for the key is overwritten in place, otherwise the
binding is appended. -/
def mapInsert {α : Type} (m : List (String × α)) (k : String) (v : α) : List (String × α) :=
  match m with
  | [] => [(k, v)]
  | (k₁, v₁) :: rest => if k₁ = k then (k, v) :: rest else (k₁, v₁) :: mapInsert rest k v

/-- The constructor loop at the end of drivers.Create: invokes the
resolved constructor once per collection, aborting the whole source on
the first failure, and builds the collectionName → Driver map. -/
def createAll (f : DriverConstructor) (cfg : SourceConfig) :
    List Collection → List (String × Driver) → Except CreateErr (List (String × Driver))
  | [], acc => Except.ok acc
  | c :: rest, acc =>
    match f cfg c with
    | Except.error e => Except.error (CreateErr.driverCreation cfg.«Type» c.Name e)
    | Except.ok driver => createAll f cfg rest (mapInsert acc c.Name driver)

/-- Result of drivers.Create together with the final state of the
passed-in SourceConfig (Create receives a pointer and writes the
defaulted type back into it before doing anything else). -/
structure CreateOutcome where
  result : Except CreateErr (List (String × Driver))
  finalConfig : SourceConfig
deriving DecidableEq, Repr

/-- Body of drivers.Create after the type back-fill: normalizes the
collections, validates non-empty collections and destinations, resolves
the constructor registered for the (already defaulted) type and invokes
it once per collection. -/
def createResult (driverConstructors : List (String × DriverConstructor))
    (sourceConfig : SourceConfig) : Except CreateErr (List (String × Driver)) :=
  match parseCollections sourceConfig.Collections with
  | Except.error e => Except.error e
  | Except.ok collections =>
    if collections.length = 0 then Except.error CreateErr.emptyCollections
    else if sourceConfig.Destinations.length = 0 then
      Except.error CreateErr.emptyDestinations
    else
      match driverConstructors.lookup sourceConfig.«Type» with
      | none => Except.error CreateErr.unknownSourceType
      | some createDriverFunc => createAll createDriverFunc sourceConfig collections []

/-- drivers.Create: first writes the registry name into an empty type
field of the passed-in config (the config is passed by pointer, so the
caller observes the write), then runs the validation and construction
body on the updated config. -/
def Create (driverConstructors : List (String × DriverConstructor))
    (name : String) (sourceConfig : SourceConfig) : CreateOutcome :=
  let sourceConfig :=
    if sourceConfig.«Type» = "" then { sourceConfig with «Type» := name } else sourceConfig
  ⟨createResult driverConstructors sourceConfig, sourceConfig⟩

/-- Registry entry (sources.Unit): the collection → driver map of one
source together with its configured destination ids. -/
structure Unit where
  DriverPerCollection : List (String × Driver)
  DestinationIds : List String
deriving DecidableEq, Repr

/-- The registry map owned by sources.Service (source name → Unit). -/
abbrev SourceMap := List (String × Unit)

/-- Service.initDrivers: for each configured source, drivers.Create is
attempted; a failing source is logged and skipped, a succeeding source
is stored (inserted or overwritten) in the registry under its name. -/
def initDrivers (driverConstructors : List (String × DriverConstructor))
    (sources : SourceMap) : List (String × SourceConfig) → SourceMap
  | [] => sources
  | (name, sourceConfig) :: rest =>
    match (Create driverConstructors name sourceConfig).result with
    | Except.error _ => initDrivers driverConstructors sources rest
    | Except.ok driverPerCollection =>
      initDrivers driverConstructors
        (mapInsert sources name ⟨driverPerCollection, sourceConfig.Destinations⟩) rest

/-- Service.updateSources: the reload callback. The payload's parse
outcome (parseFromBytes, a plain JSON decode) is passed explicitly; a
parse failure is only logged and leaves the registry untouched,
otherwise initDrivers runs over the decoded configs. -/
def updateSources (parseResult : Except String (List (String × SourceConfig)))
    (driverConstructors : List (String × DriverConstructor)) (sources : SourceMap) : SourceMap :=
  match parseResult with
  | Except.error _ => sources
  | Except.ok sourceConfigs => initDrivers driverConstructors sources sourceConfigs

/-- A destination storage proxy (destinations service): Get returns the
live storage when the destination is initialized. -/
structure StorageProxy where
  get : Option Storage
deriving DecidableEq, Repr

/-- sources.SyncTask: the value submitted to the pool for one collection. -/
structure SyncTask where
  sourceId : String
  collection : String
  identifier : String
  driver : Driver
  metaStorage : MetaStorageRef
  destinations : List Storage
  lock : LockHandle
deriving DecidableEq, Repr

/-- The external collaborators consumed by Service.Sync, modelled as
pure oracles: destination resolution (GetStorageById), the distributed
lock (MonitorKeeper.Lock, an error value on acquisition failure), pool
submission (pool.Invoke, some error message on submission failure), and
the meta-storage reference stored in each task. -/
structure SyncEnv where
  getStorageById : String → Option StorageProxy
  lock : String → String → Except String LockHandle
  invoke : SyncTask → Option String
  metaStorage : MetaStorageRef

/-- One entry of the aggregate error built by Service.Sync. -/
inductive SyncErrEntry where
  | lockError (sourceId collection msg : String)
  | dispatchError (sourceId collection msg : String)
deriving DecidableEq, Repr

/-- The error value returned by Service.Sync: the not-found and
empty-destinations fast failures, or the accumulated multierror. -/
inductive SyncErr where
  | sourceNotFound
  | emptyDestinations
  | multi (entries : List SyncErrEntry)
deriving DecidableEq, Repr

/-- The destination-resolution loop of Service.Sync: each destination id
is resolved through GetStorageById and the proxy's Get; an unknown or
not-yet-initialized destination is logged and skipped. -/
def resolveDestinations (env : SyncEnv) : List String → List Storage
  | [] => []
  | destinationId :: rest =>
    match env.getStorageById destinationId with
    | some storageProxy =>
      match storageProxy.get with
      | some storage => storage :: resolveDestinations env rest
      | none => resolveDestinations env rest
    | none => resolveDestinations env rest

/-- Outcome of one iteration of the collection loop of Service.Sync. -/
inductive CollOutcome where
  | lockFailed (msg : String)
  | invokeFailed (acquired : LockHandle) (msg : String)
  | dispatched (task : SyncTask)
deriving DecidableEq, Repr

/-- One iteration of the collection loop of Service.Sync: acquire the
distributed lock for (sourceId, collection); on success build the
SyncTask (identifier = sourceId + "_" + collection) and submit it to
the pool; either failure is reported and the loop continues. -/
def collRun (env : SyncEnv) (sourceId : String) (destinationStorages : List Storage)
    (collection : String) (driver : Driver) : CollOutcome :=
  let identifier := sourceId ++ "_" ++ collection
  match env.lock sourceId collection with
  | Except.error e => CollOutcome.lockFailed e
  | Except.ok collectionLock =>
    let task : SyncTask :=
      ⟨sourceId, collection, identifier, driver, env.metaStorage, destinationStorages, collectionLock⟩
    match env.invoke task with
    | some e => CollOutcome.invokeFailed collectionLock e
    | none => CollOutcome.dispatched task

/-- Trace of the collection loop of Service.Sync: the aggregate-error
entries, every lock call issued, every lock handle acquired, and every
task submitted to the pool, in iteration order. -/
structure LoopOut where
  errors : List SyncErrEntry
  lockCalls : List (String × String)
  acquired : List LockHandle
  dispatched : List SyncTask
deriving DecidableEq, Repr

/-- The collection loop of Service.Sync over the source's
collection → driver map. -/
def syncLoop (env : SyncEnv) (sourceId : String) (destinationStorages : List Storage) :
    List (String × Driver) → LoopOut
  | [] => ⟨[], [], [], []⟩
  | (collection, driver) :: rest =>
    let out := syncLoop env sourceId destinationStorages rest
    match collRun env sourceId destinationStorages collection driver with
    | CollOutcome.lockFailed e =>
      ⟨SyncErrEntry.lockError sourceId collection e :: out.errors,
       (sourceId, collection) :: out.lockCalls, out.acquired, out.dispatched⟩
    | CollOutcome.invokeFailed h e =>
      ⟨SyncErrEntry.dispatchError sourceId collection e :: out.errors,
       (sourceId, collection) :: out.lockCalls, h :: out.acquired, out.dispatched⟩
    | CollOutcome.dispatched t =>
      ⟨out.errors, (sourceId, collection) :: out.lockCalls,
       t.lock :: out.acquired, t :: out.dispatched⟩

/-- Result and side-effect trace of one Service.Sync call. -/
structure SyncOutcome where
  result : Option SyncErr
  errors : List SyncErrEntry
  lockCalls : List (String × String)
  acquired : List LockHandle
  dispatched : List SyncTask
deriving DecidableEq, Repr

/-- Service.Sync: look the source up in the registry (error when
absent), resolve the destination storages (error when none is live),
then run the collection loop; the returned error is nil when no
per-collection failure was recorded and the accumulated multierror
otherwise. -/
def Sync (env : SyncEnv) (sources : SourceMap) (sourceId : String) : SyncOutcome :=
  match sources.lookup sourceId with
  | none => ⟨some SyncErr.sourceNotFound, [], [], [], []⟩
  | some sourceUnit =>
    let destinationStorages := resolveDestinations env sourceUnit.DestinationIds
    if destinationStorages.length = 0 then
      ⟨some SyncErr.emptyDestinations, [], [], [], []⟩
    else
      let out := syncLoop env sourceId destinationStorages sourceUnit.DriverPerCollection
      ⟨if out.errors = [] then none else some (SyncErr.multi out.errors),
       out.errors, out.lockCalls, out.acquired, out.dispatched⟩

/-- The meta.Storage oracle consumed by GetStatus and GetLogs. -/
structure MetaEnv where
  getCollectionStatus : String → String → Except String String
  getCollectionLog : String → String → Except String String

/-- Result of Service.GetStatus or Service.GetLogs. -/
inductive ReadResult where
  | notFound
  | metaError (msg : String)
  | ok (entries : List (String × String))
deriving DecidableEq, Repr

/-- Result and meta-storage read trace of one GetStatus/GetLogs call. -/
structure ReadOutcome where
  result : ReadResult
  metaReads : List (String × String)
deriving DecidableEq, Repr

/-- The per-collection read loop shared by GetStatus and GetLogs: query
the meta storage for each collection of the Unit, aborting at the first
read failure with no partial result. -/
def readLoop (read : String → String → Except String String) (sourceId : String) :
    List (String × Driver) → Except String (List (String × String)) × List (String × String)
  | [] => (Except.ok [], [])
  | (collection, _) :: rest =>
    match read sourceId collection with
    | Except.error e => (Except.error e, [(sourceId, collection)])
    | Except.ok value =>
      let (res, reads) := readLoop read sourceId rest
      match res with
      | Except.error e => (Except.error e, (sourceId, collection) :: reads)
      | Except.ok entries => (Except.ok ((collection, value) :: entries), (sourceId, collection) :: reads)

/-- Service.GetStatus: not-found when the source is absent from the
registry, otherwise one meta-storage status read per collection. -/
def GetStatus (env : MetaEnv) (sources : SourceMap) (sourceId : String) : ReadOutcome :=
  match sources.lookup sourceId with
  | none => ⟨ReadResult.notFound, []⟩
  | some sourceUnit =>
    match readLoop env.getCollectionStatus sourceId sourceUnit.DriverPerCollection with
    | (Except.error e, reads) => ⟨ReadResult.metaError e, reads⟩
    | (Except.ok statuses, reads) => ⟨ReadResult.ok statuses, reads⟩

/-- Service.GetLogs: not-found when the source is absent from the
registry, otherwise one meta-storage log read per collection. -/
def GetLogs (env : MetaEnv) (sources : SourceMap) (sourceId : String) : ReadOutcome :=
  match sources.lookup sourceId with
  | none => ⟨ReadResult.notFound, []⟩
  | some sourceUnit =>
    match readLoop env.getCollectionLog sourceId sourceUnit.DriverPerCollection with
    | (Except.error e, reads) => ⟨ReadResult.metaError e, reads⟩
    | (Except.ok logs, reads) => ⟨ReadResult.ok logs, reads⟩

/-- The value handed to the pool worker (a Go interface value): either
an actual SyncTask or something of another dynamic type. -/
inductive PoolInput where
  | task (t : SyncTask)
  | other
deriving DecidableEq, Repr

/-- How the task body (SyncTask.Sync, the driver run) terminates. -/
inductive TaskOutcome where
  | success
  | failure (msg : String)
  | panicked (msg : String)
deriving DecidableEq, Repr

/-- Service.syncCollection, the pool worker: a value of unknown dynamic
type is logged and dropped without touching any lock; for a SyncTask
the deferred MonitorKeeper.Unlock releases the task's lock exactly once
after the task body returns or panics, whatever the outcome. The
returned list is the trace of unlock calls the worker performs. -/
def syncCollection (i : PoolInput) (outcome : TaskOutcome) : List LockHandle :=
  match i, outcome with
  | PoolInput.other, _ => []
  | PoolInput.task synctTask, TaskOutcome.success => [synctTask.lock]
  | PoolInput.task synctTask, TaskOutcome.failure _ => [synctTask.lock]
  | PoolInput.task synctTask, TaskOutcome.panicked _ => [synctTask.lock]

/-- Total number of unlock calls for a given handle performed by the
pool workers executing the dispatched tasks, each task run once with
its own outcome. -/
def totalUnlocks (tasks : List SyncTask) (outcomes : SyncTask → TaskOutcome)
    (h : LockHandle) : Nat :=
  ((tasks.map (fun t => syncCollection (PoolInput.task t) (outcomes t))).flatten).count h

/-- drivers.Granularity. -/
inductive Granularity where
  | DAY
  | MONTH
  | YEAR
  | FOREVER
deriving DecidableEq, Repr

/-- A calendar date as carried by a Go time.Time value, restricted to
the fields the Format layouts consume. -/
structure GoTime where
  year : Nat
  month : Nat
  day : Nat
deriving DecidableEq, Repr

/-- Zero-padded two-digit rendering (Go reference-layout chunks 01, 02). -/
def pad2 (n : Nat) : String :=
  if n < 10 then "0" ++ toString n else toString n

/-- Four-digit-minimum year rendering (Go reference-layout chunk 2006). -/
def pad4 (n : Nat) : String :=
  if n < 10 then "000" ++ toString n
  else if n < 100 then "00" ++ toString n
  else if n < 1000 then "0" ++ toString n
  else toString n

/-- Go time.Time.Format restricted to the reference-layout chunks that
occur in drivers' layouts: 2006 renders the year, 01 the month, 02 the
day of month, and any other character is copied verbatim. -/
def goFormatChars (layout : List Char) (t : GoTime) : String :=
  match layout with
  | '2' :: '0' :: '0' :: '6' :: rest => pad4 t.year ++ goFormatChars rest t
  | '0' :: '1' :: rest => pad2 t.month ++ goFormatChars rest t
  | '0' :: '2' :: rest => pad2 t.day ++ goFormatChars rest t
  | c :: rest => String.singleton c ++ goFormatChars rest t
  | [] => ""

/-- Go time.Time.Format on a layout string. -/
def goFormat (layout : String) (t : GoTime) : String :=
  goFormatChars layout.toList t

/-- Granularity.Format: the DAY layout in the source is the literal
string 2006-01-01 (not 2006-01-02); the default branch logs a system
error and yields the empty string. -/
def Format (g : Granularity) (t : GoTime) : String :=
  match g with
  | Granularity.DAY => goFormat "2006-01-01" t
  | Granularity.MONTH => goFormat "2006-01" t
  | Granularity.YEAR => goFormat "2006" t
  | Granularity.FOREVER => ""

/-! ## Helper lemmas -/

/-- Looking up the inserted key finds the inserted value. -/
theorem lookup_mapInsert_self {α : Type} (m : List (String × α)) (k : String) (v : α) :
    (mapInsert m k v).lookup k = some v := by
  induction m with
  | nil => simp [mapInsert, List.lookup]
  | cons p rest ih =>
    obtain ⟨k₁, v₁⟩ := p
    by_cases h : k₁ = k
    · simp [mapInsert, h, List.lookup]
    · simp only [mapInsert, if_neg h, List.lookup]
      have : (k == k₁) = false := by
        simp [BEq.beq]
        exact fun he => h he.symm
      rw [this]
      exact ih

/-- Insertion leaves the bindings of other keys untouched. -/
theorem lookup_mapInsert_ne {α : Type} (m : List (String × α)) (k k₂ : String) (v : α)
    (h : k₂ ≠ k) : (mapInsert m k v).lookup k₂ = m.lookup k₂ := by
  induction m with
  | nil =>
    simp only [mapInsert, List.lookup]
    have : (k₂ == k) = false := by
      simp [BEq.beq]
      exact h
    rw [this]
  | cons p rest ih =>
    obtain ⟨k₁, v₁⟩ := p
    by_cases h₁ : k₁ = k
    · subst h₁
      have hne : (k₂ == k₁) = false := by
        simp [BEq.beq]
        exact h
      simp only [mapInsert, if_pos rfl, List.lookup, hne]
    · simp only [mapInsert, if_neg h₁, List.lookup]
      cases hbe : (k₂ == k₁) with
      | true => rfl
      | false => exact ih

/-- A reload pass over configs none of which carries the name n leaves
the binding of n untouched. -/
theorem initDrivers_lookup_of_absent (cs : List (String × DriverConstructor)) (m : SourceMap)
    (configs : List (String × SourceConfig)) (n : String)
    (h : ∀ k ∈ configs.map Prod.fst, k ≠ n) :
    (initDrivers cs m configs).lookup n = m.lookup n := by
  induction configs generalizing m with
  | nil => rfl
  | cons p rest ih =>
    obtain ⟨k, cfg⟩ := p
    have hk : k ≠ n := h k (by simp)
    have hrest : ∀ k₂ ∈ rest.map Prod.fst, k₂ ≠ n := fun k₂ hm => h k₂ (by simp [hm])
    cases hc : (Create cs k cfg).result with
    | error e =>
      simp only [initDrivers, hc]
      exact ih m hrest
    | ok d =>
      simp only [initDrivers, hc]
      rw [ih _ hrest]
      exact lookup_mapInsert_ne m k n _ (fun he => hk he.symm)

/-- A source whose Create succeeds during a reload pass ends up bound to
its freshly built unit (assuming, as for a decoded Go map, that the
payload's keys are distinct). -/
theorem initDrivers_lookup_of_create_ok (cs : List (String × DriverConstructor)) (m : SourceMap)
    (configs : List (String × SourceConfig)) (n : String) (cfg : SourceConfig)
    (d : List (String × Driver))
    (hnd : (configs.map Prod.fst).Nodup) (hmem : (n, cfg) ∈ configs)
    (hok : (Create cs n cfg).result = Except.ok d) :
    (initDrivers cs m configs).lookup n = some ⟨d, cfg.Destinations⟩ := by
  induction configs generalizing m with
  | nil => cases hmem
  | cons p rest ih =>
    obtain ⟨k, kcfg⟩ := p
    have hnd₁ : k ∉ rest.map Prod.fst := by
      simp only [List.map_cons, List.nodup_cons] at hnd
      exact hnd.1
    have hndrest : (rest.map Prod.fst).Nodup := by
      simp only [List.map_cons, List.nodup_cons] at hnd
      exact hnd.2
    rcases List.mem_cons.mp hmem with heq | hmem₂
    · have hn : n = k := congrArg Prod.fst heq
      have hcfg : cfg = kcfg := congrArg Prod.snd heq
      subst hn
      subst hcfg
      simp only [initDrivers, hok]
      rw [initDrivers_lookup_of_absent cs _ rest n
        (fun k₂ hm => fun he => hnd₁ (he ▸ hm))]
      exact lookup_mapInsert_self m n _
    · have hne : n ≠ k := by
        intro he
        subst he
        exact hnd₁ (List.mem_map.mpr ⟨(n, cfg), hmem₂, rfl⟩)
      cases hc : (Create cs k kcfg).result with
      | error e =>
        simp only [initDrivers, hc]
        exact ih m hndrest hmem₂
      | ok dk =>
        simp only [initDrivers, hc]
        exact ih _ hndrest hmem₂

/-- A source whose Create fails during a reload pass keeps exactly the
binding it had before the reload. -/
theorem initDrivers_lookup_of_create_err (cs : List (String × DriverConstructor)) (m : SourceMap)
    (configs : List (String × SourceConfig)) (n : String) (cfg : SourceConfig) (e : CreateErr)
    (hnd : (configs.map Prod.fst).Nodup) (hmem : (n, cfg) ∈ configs)
    (herr : (Create cs n cfg).result = Except.error e) :
    (initDrivers cs m configs).lookup n = m.lookup n := by
  induction configs generalizing m with
  | nil => cases hmem
  | cons p rest ih =>
    obtain ⟨k, kcfg⟩ := p
    have hnd₁ : k ∉ rest.map Prod.fst := by
      simp only [List.map_cons, List.nodup_cons] at hnd
      exact hnd.1
    have hndrest : (rest.map Prod.fst).Nodup := by
      simp only [List.map_cons, List.nodup_cons] at hnd
      exact hnd.2
    rcases List.mem_cons.mp hmem with heq | hmem₂
    · have hn : n = k := congrArg Prod.fst heq
      have hcfg : cfg = kcfg := congrArg Prod.snd heq
      subst hn
      subst hcfg
      simp only [initDrivers, herr]
      exact initDrivers_lookup_of_absent cs m rest n
        (fun k₂ hm => fun he => hnd₁ (he ▸ hm))
    · have hne : n ≠ k := by
        intro he
        subst he
        exact hnd₁ (List.mem_map.mpr ⟨(n, cfg), hmem₂, rfl⟩)
      cases hc : (Create cs k kcfg).result with
      | error ek =>
        simp only [initDrivers, hc]
        exact ih m hndrest hmem₂
      | ok dk =>
        simp only [initDrivers, hc]
        rw [ih _ hndrest hmem₂]
        exact lookup_mapInsert_ne m k n _ (fun he => hne he)

/-- Whether the collection loop iteration for this (collection, driver)
pair records a failure (lock acquisition or pool submission). -/
def collFails (env : SyncEnv) (sourceId : String) (dests : List Storage)
    (cd : String × Driver) : Bool :=
  match collRun env sourceId dests cd.1 cd.2 with
  | CollOutcome.dispatched _ => false
  | _ => true

/-- The loop records exactly one aggregate-error entry per failing
collection. -/
theorem syncLoop_errors_length (env : SyncEnv) (sourceId : String) (dests : List Storage)
    (cols : List (String × Driver)) :
    (syncLoop env sourceId dests cols).errors.length = cols.countP (collFails env sourceId dests) := by
  induction cols with
  | nil => rfl
  | cons cd rest ih =>
    obtain ⟨c, d⟩ := cd
    cases hr : collRun env sourceId dests c d <;>
      simp [syncLoop, hr, List.countP_cons, collFails, ih]

/-- Every loop iteration ends in exactly one of: an error entry or a
dispatched task. -/
theorem syncLoop_errors_add_dispatched (env : SyncEnv) (sourceId : String) (dests : List Storage)
    (cols : List (String × Driver)) :
    (syncLoop env sourceId dests cols).errors.length
      + (syncLoop env sourceId dests cols).dispatched.length = cols.length := by
  induction cols with
  | nil => rfl
  | cons cd rest ih =>
    obtain ⟨c, d⟩ := cd
    cases hr : collRun env sourceId dests c d <;>
      simp [syncLoop, hr, ih] <;> omega

/-- The loop issues exactly one lock call per collection, in order. -/
theorem syncLoop_lockCalls (env : SyncEnv) (sourceId : String) (dests : List Storage)
    (cols : List (String × Driver)) :
    (syncLoop env sourceId dests cols).lockCalls = cols.map (fun cd => (sourceId, cd.1)) := by
  induction cols with
  | nil => rfl
  | cons cd rest ih =>
    obtain ⟨c, d⟩ := cd
    cases hr : collRun env sourceId dests c d <;> simp [syncLoop, hr, ih]

/-- A task is dispatched by the loop exactly when its collection's
iteration ends in dispatch. -/
theorem syncLoop_mem_dispatched (env : SyncEnv) (sourceId : String) (dests : List Storage)
    (cols : List (String × Driver)) (t : SyncTask) :
    t ∈ (syncLoop env sourceId dests cols).dispatched ↔
      ∃ cd ∈ cols, collRun env sourceId dests cd.1 cd.2 = CollOutcome.dispatched t := by
  induction cols with
  | nil => simp [syncLoop]
  | cons cd rest ih =>
    obtain ⟨c, d⟩ := cd
    cases hr : collRun env sourceId dests c d with
    | lockFailed e => simp [syncLoop, hr, ih]
    | invokeFailed h e => simp [syncLoop, hr, ih]
    | dispatched t₂ =>
      simp only [syncLoop, hr, List.mem_cons, ih]
      constructor
      · intro hm
        rcases hm with he | ⟨cd₂, hcd₂, hrun⟩
        · exact ⟨(c, d), by simp, by rw [hr, he]⟩
        · exact ⟨cd₂, by simp [hcd₂], hrun⟩
      · intro hm
        rcases hm with ⟨cd₂, hcd₂, hrun⟩
        rcases hcd₂ with he | hm₂
        · subst he
          rw [hr] at hrun
          cases hrun
          exact Or.inl rfl
        · exact Or.inr ⟨cd₂, hm₂, hrun⟩

/-- Inversion of a dispatching iteration: the task carries the loop's
source id and the collection, its lock handle is exactly the one the
acquisition returned, and its pool submission succeeded. -/
theorem collRun_dispatched_inv (env : SyncEnv) (sourceId : String) (dests : List Storage)
    (c : String) (d : Driver) (t : SyncTask)
    (h : collRun env sourceId dests c d = CollOutcome.dispatched t) :
    t.sourceId = sourceId ∧ t.collection = c ∧ t.identifier = sourceId ++ "_" ++ c ∧
      env.lock sourceId c = Except.ok t.lock ∧ env.invoke t = none := by
  cases hl : env.lock sourceId c with
  | error e => simp [collRun, hl] at h
  | ok lk =>
    simp only [collRun, hl] at h
    cases hi : env.invoke ⟨sourceId, c, sourceId ++ "_" ++ c, d, env.metaStorage, dests, lk⟩ with
    | some e => rw [hi] at h; cases h
    | none =>
      rw [hi] at h
      cases h
      exact ⟨rfl, rfl, rfl, rfl, hi⟩

/-- A destination id is unavailable when it resolves to no storage
proxy or its proxy is not yet initialized. -/
def destUnavailable (env : SyncEnv) (destinationId : String) : Bool :=
  match env.getStorageById destinationId with
  | none => true
  | some p => p.get.isNone

/-- When every destination id is unavailable, resolution yields the
empty storage set. -/
theorem resolveDestinations_nil (env : SyncEnv) (ids : List String)
    (h : ∀ d ∈ ids, destUnavailable env d = true) :
    resolveDestinations env ids = [] := by
  induction ids with
  | nil => rfl
  | cons d rest ih =>
    have hd : destUnavailable env d = true := h d (by simp)
    have hrest : ∀ d₂ ∈ rest, destUnavailable env d₂ = true := fun d₂ hm => h d₂ (by simp [hm])
    cases hg : env.getStorageById d with
    | none => simp [resolveDestinations, hg, ih hrest]
    | some p =>
      simp only [destUnavailable, hg] at hd
      cases hp : p.get with
      | none => simp [resolveDestinations, hg, hp, ih hrest]
      | some st => rw [hp] at hd; simp at hd

/-- An individual unavailable destination id is skipped: resolution over
a list containing it equals resolution over the list without it. -/
theorem resolveDestinations_skip (env : SyncEnv) (pre post : List String) (d : String)
    (h : destUnavailable env d = true) :
    resolveDestinations env (pre ++ d :: post) = resolveDestinations env (pre ++ post) := by
  induction pre with
  | nil =>
    cases hg : env.getStorageById d with
    | none => simp [resolveDestinations, hg]
    | some p =>
      simp only [destUnavailable, hg] at h
      cases hp : p.get with
      | none => simp [resolveDestinations, hg, hp]
      | some st => rw [hp] at h; simp at h
  | cons a pre ih =>
    cases hg : env.getStorageById a with
    | none => simpa [resolveDestinations, hg] using ih
    | some p =>
      cases hp : p.get with
      | none => simpa [resolveDestinations, hg, hp] using ih
      | some st => simpa [resolveDestinations, hg, hp] using ih

/-- Unfolding of Sync on a registered source with a non-empty resolved
destination set. -/
theorem Sync_eq_of_found (env : SyncEnv) (sources : SourceMap) (sourceId : String)
    (sourceUnit : Unit)
    (hfound : sources.lookup sourceId = some sourceUnit)
    (hne : resolveDestinations env sourceUnit.DestinationIds ≠ []) :
    Sync env sources sourceId =
      ⟨if (syncLoop env sourceId (resolveDestinations env sourceUnit.DestinationIds)
            sourceUnit.DriverPerCollection).errors = [] then none
        else some (SyncErr.multi (syncLoop env sourceId
          (resolveDestinations env sourceUnit.DestinationIds)
          sourceUnit.DriverPerCollection).errors),
       (syncLoop env sourceId (resolveDestinations env sourceUnit.DestinationIds)
          sourceUnit.DriverPerCollection).errors,
       (syncLoop env sourceId (resolveDestinations env sourceUnit.DestinationIds)
          sourceUnit.DriverPerCollection).lockCalls,
       (syncLoop env sourceId (resolveDestinations env sourceUnit.DestinationIds)
          sourceUnit.DriverPerCollection).acquired,
       (syncLoop env sourceId (resolveDestinations env sourceUnit.DestinationIds)
          sourceUnit.DriverPerCollection).dispatched⟩ := by
  have hlen : (resolveDestinations env sourceUnit.DestinationIds).length ≠ 0 := by
    intro h
    exact hne (List.length_eq_zero.mp h)
  simp [Sync, hfound, hlen]

/-! ## Claim C5 -/

/-- Claim C5: for every sourceId not present in the registry, Sync,
GetStatus and GetLogs each return a not-found error and perform no side
effect: no lock call, no lock acquired, no task dispatched, and no
meta-storage read. -/
theorem c5_unknown_source_no_side_effect (env : SyncEnv) (menv : MetaEnv)
    (sources : SourceMap) (sourceId : String)
    (h : sources.lookup sourceId = none) :
    Sync env sources sourceId = ⟨some SyncErr.sourceNotFound, [], [], [], []⟩ ∧
    GetStatus menv sources sourceId = ⟨ReadResult.notFound, []⟩ ∧
    GetLogs menv sources sourceId = ⟨ReadResult.notFound, []⟩ := by
  refine ⟨?_, ?_, ?_⟩ <;> simp [Sync, GetStatus, GetLogs, h]

/-- Closed instance of claim C5 at a concrete empty registry. -/
theorem c5_witness :
    (([] : SourceMap).lookup "crm" = none) ∧
    Sync ⟨fun _ => none, fun _ _ => Except.error "lk", fun _ => none, 0⟩ [] "crm" =
      ⟨some SyncErr.sourceNotFound, [], [], [], []⟩ ∧
    GetStatus ⟨fun _ _ => Except.ok "st", fun _ _ => Except.ok "lg"⟩ [] "crm" =
      ⟨ReadResult.notFound, []⟩ ∧
    GetLogs ⟨fun _ _ => Except.ok "st", fun _ _ => Except.ok "lg"⟩ [] "crm" =
      ⟨ReadResult.notFound, []⟩ := by
  refine ⟨rfl, ?_⟩
  exact c5_unknown_source_no_side_effect
    ⟨fun _ => none, fun _ _ => Except.error "lk", fun _ => none, 0⟩
    ⟨fun _ _ => Except.ok "st", fun _ _ => Except.ok "lg"⟩ [] "crm" rfl

/-! ## Claim C6 -/

/-- Claim C6: a reload payload that fails to parse aborts the reload
(the error is only logged) and leaves the registry exactly as it was:
the same source-id set and the same Unit for every source, with no
partial application. -/
theorem c6_malformed_reload_keeps_registry (e : String)
    (driverConstructors : List (String × DriverConstructor)) (sources : SourceMap) :
    updateSources (Except.error e) driverConstructors sources = sources := rfl

/-! ## Claim C4 -/

/-- Claim C4: when every destination id of a registered source is
unavailable (unknown or not ready), Sync fails with the
empty-destinations error and performs no collection work: no lock call,
no acquisition, no dispatch; moreover an individual unavailable
destination id is merely excluded from the resolved set, so it cannot
by itself fail the call. -/
theorem c4_empty_destinations_fast_fail :
    (∀ (env : SyncEnv) (sources : SourceMap) (sourceId : String) (sourceUnit : Unit),
      sources.lookup sourceId = some sourceUnit →
      (∀ d ∈ sourceUnit.DestinationIds, destUnavailable env d = true) →
      Sync env sources sourceId = ⟨some SyncErr.emptyDestinations, [], [], [], []⟩) ∧
    (∀ (env : SyncEnv) (pre post : List String) (d : String),
      destUnavailable env d = true →
      resolveDestinations env (pre ++ d :: post) = resolveDestinations env (pre ++ post)) := by
  constructor
  · intro env sources sourceId sourceUnit hfound hall
    have hnil : resolveDestinations env sourceUnit.DestinationIds = [] :=
      resolveDestinations_nil env _ hall
    simp [Sync, hfound, hnil]
  · intro env pre post d h
    exact resolveDestinations_skip env pre post d h

/-- Closed instance of claim C4: both destinations of the source are
unavailable (one unknown, one not initialized), so Sync fails fast with
no lock call and no dispatch; dropping the unknown id alone does not
change the resolved set. -/
theorem c4_witness :
    Sync ⟨fun d => if d = "d2" then some ⟨none⟩ else none, fun _ _ => Except.ok 3, fun _ => none, 0⟩
        [("crm", ⟨[("contacts", 1)], ["d1", "d2"]⟩)] "crm" =
      ⟨some SyncErr.emptyDestinations, [], [], [], []⟩ ∧
    resolveDestinations
        ⟨fun d => if d = "d2" then some ⟨none⟩ else none, fun _ _ => Except.ok 3, fun _ => none, 0⟩
        (["d2"] ++ "d1" :: []) =
      resolveDestinations
        ⟨fun d => if d = "d2" then some ⟨none⟩ else none, fun _ _ => Except.ok 3, fun _ => none, 0⟩
        (["d2"] ++ []) := by
  constructor
  · exact c4_empty_destinations_fast_fail.1
      ⟨fun d => if d = "d2" then some ⟨none⟩ else none, fun _ _ => Except.ok 3, fun _ => none, 0⟩
      [("crm", ⟨[("contacts", 1)], ["d1", "d2"]⟩)] "crm" ⟨[("contacts", 1)], ["d1", "d2"]⟩
      rfl (by decide)
  · exact c4_empty_destinations_fast_fail.2
      ⟨fun d => if d = "d2" then some ⟨none⟩ else none, fun _ _ => Except.ok 3, fun _ => none, 0⟩
      ["d2"] [] "d1" (by decide)

/-! ## Claim C3 -/

/-- Claim C3: for a registered source with a non-empty resolved
destination set, if the lock-or-dispatch step fails for exactly one
collection, Sync returns an aggregate error with exactly one entry and
dispatches the remaining N − 1 collections, each non-failing collection
contributing a task. -/
theorem c3_single_failure_isolation (env : SyncEnv) (sources : SourceMap) (sourceId : String)
    (sourceUnit : Unit)
    (hfound : sources.lookup sourceId = some sourceUnit)
    (hne : resolveDestinations env sourceUnit.DestinationIds ≠ [])
    (hone : sourceUnit.DriverPerCollection.countP
      (collFails env sourceId (resolveDestinations env sourceUnit.DestinationIds)) = 1) :
    (Sync env sources sourceId).errors.length = 1 ∧
    (Sync env sources sourceId).result =
      some (SyncErr.multi (Sync env sources sourceId).errors) ∧
    (Sync env sources sourceId).dispatched.length =
      sourceUnit.DriverPerCollection.length - 1 ∧
    ∀ cd ∈ sourceUnit.DriverPerCollection,
      collFails env sourceId (resolveDestinations env sourceUnit.DestinationIds) cd = false →
      ∃ t ∈ (Sync env sources sourceId).dispatched, t.collection = cd.1 := by
  rw [Sync_eq_of_found env sources sourceId sourceUnit hfound hne]
  have herr := syncLoop_errors_length env sourceId
    (resolveDestinations env sourceUnit.DestinationIds) sourceUnit.DriverPerCollection
  have hsum := syncLoop_errors_add_dispatched env sourceId
    (resolveDestinations env sourceUnit.DestinationIds) sourceUnit.DriverPerCollection
  rw [hone] at herr
  have herrlen : (syncLoop env sourceId (resolveDestinations env sourceUnit.DestinationIds)
      sourceUnit.DriverPerCollection).errors.length = 1 := herr
  have herrne : (syncLoop env sourceId (resolveDestinations env sourceUnit.DestinationIds)
      sourceUnit.DriverPerCollection).errors ≠ [] := by
    intro hn
    rw [hn] at herrlen
    cases herrlen
  refine ⟨herrlen, by simp [herrne], by dsimp only; omega, ?_⟩
  intro cd hmem hnf
  have : ∃ t, collRun env sourceId (resolveDestinations env sourceUnit.DestinationIds)
      cd.1 cd.2 = CollOutcome.dispatched t := by
    unfold collFails at hnf
    cases hr : collRun env sourceId (resolveDestinations env sourceUnit.DestinationIds)
        cd.1 cd.2 with
    | dispatched t => exact ⟨t, rfl⟩
    | lockFailed e => rw [hr] at hnf; cases hnf
    | invokeFailed h e => rw [hr] at hnf; cases hnf
  rcases this with ⟨t, ht⟩
  refine ⟨t, ?_, (collRun_dispatched_inv env sourceId _ cd.1 cd.2 t ht).2.1⟩
  exact (syncLoop_mem_dispatched env sourceId _ sourceUnit.DriverPerCollection t).mpr
    ⟨cd, hmem, ht⟩

/-- Closed instance of claim C3: two collections, the lock for "deals"
fails, so the aggregate error has one entry and one task is dispatched. -/
theorem c3_witness :
    (Sync ⟨fun _ => some ⟨some "wh"⟩,
        fun _ c => if c = "deals" then Except.error "lock busy" else Except.ok 5,
        fun _ => none, 0⟩
      [("crm", ⟨[("contacts", 1), ("deals", 2)], ["warehouse"]⟩)] "crm").errors.length = 1 ∧
    (Sync ⟨fun _ => some ⟨some "wh"⟩,
        fun _ c => if c = "deals" then Except.error "lock busy" else Except.ok 5,
        fun _ => none, 0⟩
      [("crm", ⟨[("contacts", 1), ("deals", 2)], ["warehouse"]⟩)] "crm").dispatched.length
      = 2 - 1 := by
  have h := c3_single_failure_isolation
    ⟨fun _ => some ⟨some "wh"⟩,
      fun _ c => if c = "deals" then Except.error "lock busy" else Except.ok 5,
      fun _ => none, 0⟩
    [("crm", ⟨[("contacts", 1), ("deals", 2)], ["warehouse"]⟩)] "crm"
    ⟨[("contacts", 1), ("deals", 2)], ["warehouse"]⟩
    rfl (by decide) (by decide)
  exact ⟨h.1, h.2.2.1⟩

/-! ## Claim C8 -/

/-- Claim C8: for the registered source "crm" with collections
"contacts" and "deals" and the single ready destination "warehouse",
Sync returns nil and dispatches exactly the two tasks with composite
identifiers "crm_contacts" and "crm_deals". -/
theorem c8_two_collections_dispatch :
    (Sync ⟨fun d => if d = "warehouse" then some ⟨some "warehouse-storage"⟩ else none,
        fun _ _ => Except.ok 5, fun _ => none, 0⟩
      [("crm", ⟨[("contacts", 1), ("deals", 2)], ["warehouse"]⟩)] "crm").result = none ∧
    ((Sync ⟨fun d => if d = "warehouse" then some ⟨some "warehouse-storage"⟩ else none,
        fun _ _ => Except.ok 5, fun _ => none, 0⟩
      [("crm", ⟨[("contacts", 1), ("deals", 2)], ["warehouse"]⟩)] "crm").dispatched.map
        SyncTask.identifier) = ["crm_contacts", "crm_deals"] := by
  constructor
  · decide
  · decide

/-! ## Claim C1 -/

/-- Counterexample to claim C1 as stated: a concrete run in which Sync
acquires the distributed lock for ("crm", "contacts") — the lock trace
records handle 7 — but pool submission fails, so no task is dispatched
and no worker execution ever unlocks handle 7: the lock is released
zero times, not exactly once. -/
theorem c1_counterexample :
    (Sync ⟨fun d => if d = "warehouse" then some ⟨some "wh"⟩ else none,
        fun _ _ => Except.ok 7, fun _ => some "pool is closed", 0⟩
      [("crm", ⟨[("contacts", 1)], ["warehouse"]⟩)] "crm").acquired = [7] ∧
    (Sync ⟨fun d => if d = "warehouse" then some ⟨some "wh"⟩ else none,
        fun _ _ => Except.ok 7, fun _ => some "pool is closed", 0⟩
      [("crm", ⟨[("contacts", 1)], ["warehouse"]⟩)] "crm").dispatched = [] ∧
    totalUnlocks
      (Sync ⟨fun d => if d = "warehouse" then some ⟨some "wh"⟩ else none,
          fun _ _ => Except.ok 7, fun _ => some "pool is closed", 0⟩
        [("crm", ⟨[("contacts", 1)], ["warehouse"]⟩)] "crm").dispatched
      (fun _ => TaskOutcome.success) 7 = 0 := by
  refine ⟨by decide, by decide, by decide⟩

/-- Claim C1 as amended: for every task that Sync actually dispatches
(lock acquired and pool submission succeeded), the task carries exactly
the handle returned by the lock acquisition for its collection, and the
worker that executes it releases that lock exactly once, regardless of
the task body's outcome (success, error, or panic). When submission
fails the task is not dispatched and the orchestrator never releases
the acquired lock. -/
theorem c1_lock_released_once_per_dispatched_task (env : SyncEnv) (sources : SourceMap)
    (sourceId : String) (t : SyncTask)
    (ht : t ∈ (Sync env sources sourceId).dispatched) (outcome : TaskOutcome) :
    env.lock sourceId t.collection = Except.ok t.lock ∧
    env.invoke t = none ∧
    syncCollection (PoolInput.task t) outcome = [t.lock] := by
  have hsync : ∀ o, syncCollection (PoolInput.task t) o = [t.lock] := by
    intro o
    cases o <;> rfl
  cases hf : sources.lookup sourceId with
  | none => simp [Sync, hf] at ht
  | some sourceUnit =>
    by_cases hlen : (resolveDestinations env sourceUnit.DestinationIds).length = 0
    · simp [Sync, hf, hlen] at ht
    · have hne : resolveDestinations env sourceUnit.DestinationIds ≠ [] := by
        intro hn
        rw [hn] at hlen
        exact hlen rfl
      rw [Sync_eq_of_found env sources sourceId sourceUnit hf hne] at ht
      have hmem := (syncLoop_mem_dispatched env sourceId
        (resolveDestinations env sourceUnit.DestinationIds)
        sourceUnit.DriverPerCollection t).mp ht
      rcases hmem with ⟨cd, _, hrun⟩
      have hinv := collRun_dispatched_inv env sourceId _ cd.1 cd.2 t hrun
      exact ⟨hinv.2.1 ▸ hinv.2.2.2.1, hinv.2.2.2.2, hsync outcome⟩

/-- Closed instance of the amended claim C1: the single dispatched task
of a successful run holds lock handle 5, and its worker execution
releases exactly that handle once even when the task body panics. -/
theorem c1_witness :
    ((⟨"crm", "contacts", "crm_contacts", 1, 0, ["wh"], 5⟩ : SyncTask) ∈
      (Sync ⟨fun _ => some ⟨some "wh"⟩, fun _ _ => Except.ok 5, fun _ => none, 0⟩
        [("crm", ⟨[("contacts", 1)], ["warehouse"]⟩)] "crm").dispatched) ∧
    syncCollection
      (PoolInput.task ⟨"crm", "contacts", "crm_contacts", 1, 0, ["wh"], 5⟩)
      (TaskOutcome.panicked "boom") = [5] := by
  refine ⟨by decide, ?_⟩
  exact (c1_lock_released_once_per_dispatched_task
    ⟨fun _ => some ⟨some "wh"⟩, fun _ _ => Except.ok 5, fun _ => none, 0⟩
    [("crm", ⟨[("contacts", 1)], ["warehouse"]⟩)] "crm"
    ⟨"crm", "contacts", "crm_contacts", 1, 0, ["wh"], 5⟩
    (by decide) (TaskOutcome.panicked "boom")).2.2

/-! ## Claim C2 -/

/-- Counterexample to claim C2 as stated: a reload whose payload holds
only the new source "b" does not remove the pre-existing source "a"
from the registry — initDrivers inserts each successfully created
source into the existing map and never deletes absent ones, so the
result is a merge, not a wholesale replacement. -/
theorem c2_counterexample :
    ((["b"] : List String) = ([("b", (⟨"b", ["d2"], [CollectionValue.str "c2"], []⟩ :
        SourceConfig))].map Prod.fst)) ∧
    ([("b", (⟨"b", ["d2"], [CollectionValue.str "c2"], []⟩ : SourceConfig))].lookup "a"
      = none) ∧
    (updateSources
        (Except.ok [("b", ⟨"b", ["d2"], [CollectionValue.str "c2"], []⟩)])
        [("b", fun _ _ => Except.ok 2)]
        [("a", ⟨[("c1", 1)], ["d1"]⟩)]).lookup "a" = some ⟨[("c1", 1)], ["d1"]⟩ ∧
    (updateSources
        (Except.ok [("b", ⟨"b", ["d2"], [CollectionValue.str "c2"], []⟩)])
        [("b", fun _ _ => Except.ok 2)]
        [("a", ⟨[("c1", 1)], ["d1"]⟩)]).lookup "b" = some ⟨[("c2", 2)], ["d2"]⟩ := by
  refine ⟨rfl, rfl, by decide, by decide⟩

/-- Claim C2 as amended: a successful reload merges the new payload
into the registry source by source — each source whose Create succeeds
is bound (inserted or overwritten) to its freshly built unit, each
source whose Create fails keeps its previous binding, and every source
absent from the payload is retained unchanged; the old map is never
cleared. -/
theorem c2_reload_merges_registry :
    (∀ (cs : List (String × DriverConstructor)) (m : SourceMap)
        (configs : List (String × SourceConfig)) (n : String),
      (∀ k ∈ configs.map Prod.fst, k ≠ n) →
      (updateSources (Except.ok configs) cs m).lookup n = m.lookup n) ∧
    (∀ (cs : List (String × DriverConstructor)) (m : SourceMap)
        (configs : List (String × SourceConfig)) (n : String) (cfg : SourceConfig)
        (d : List (String × Driver)),
      (configs.map Prod.fst).Nodup → (n, cfg) ∈ configs →
      (Create cs n cfg).result = Except.ok d →
      (updateSources (Except.ok configs) cs m).lookup n = some ⟨d, cfg.Destinations⟩) ∧
    (∀ (cs : List (String × DriverConstructor)) (m : SourceMap)
        (configs : List (String × SourceConfig)) (n : String) (cfg : SourceConfig)
        (e : CreateErr),
      (configs.map Prod.fst).Nodup → (n, cfg) ∈ configs →
      (Create cs n cfg).result = Except.error e →
      (updateSources (Except.ok configs) cs m).lookup n = m.lookup n) := by
  refine ⟨?_, ?_, ?_⟩
  · intro cs m configs n h
    exact initDrivers_lookup_of_absent cs m configs n h
  · intro cs m configs n cfg d hnd hmem hok
    exact initDrivers_lookup_of_create_ok cs m configs n cfg d hnd hmem hok
  · intro cs m configs n cfg e hnd hmem herr
    exact initDrivers_lookup_of_create_err cs m configs n cfg e hnd hmem herr

/-- Closed instance of the amended claim C2 on the counterexample's
inputs: the retained source "a", the freshly registered source "b". -/
theorem c2_witness :
    (updateSources
        (Except.ok [("b", ⟨"b", ["d2"], [CollectionValue.str "c2"], []⟩)])
        [("b", fun _ _ => Except.ok 2)]
        [("a", ⟨[("c1", 1)], ["d1"]⟩)]).lookup "a" =
      ([("a", (⟨[("c1", 1)], ["d1"]⟩ : Unit))].lookup "a") ∧
    (updateSources
        (Except.ok [("b", ⟨"b", ["d2"], [CollectionValue.str "c2"], []⟩)])
        [("b", fun _ _ => Except.ok 2)]
        [("a", ⟨[("c1", 1)], ["d1"]⟩)]).lookup "b" = some ⟨[("c2", 2)], ["d2"]⟩ := by
  constructor
  · exact c2_reload_merges_registry.1
      [("b", fun _ _ => Except.ok 2)]
      [("a", ⟨[("c1", 1)], ["d1"]⟩)]
      [("b", ⟨"b", ["d2"], [CollectionValue.str "c2"], []⟩)] "a"
      (by decide)
  · exact c2_reload_merges_registry.2.1
      [("b", fun _ _ => Except.ok 2)]
      [("a", ⟨[("c1", 1)], ["d1"]⟩)]
      [("b", ⟨"b", ["d2"], [CollectionValue.str "c2"], []⟩)] "b"
      ⟨"b", ["d2"], [CollectionValue.str "c2"], []⟩ [("c2", 2)]
      (by decide) (by decide) (by decide)

/-! ## Claim C7 -/

/-- Whether one raw collection entry normalizes successfully. -/
def parseOk (v : CollectionValue) : Bool :=
  match parseCollection v with
  | Except.ok _ => true
  | Except.error _ => false

/-- The type drivers.Create resolves the constructor under: the
configured type, or the registry name when the type field is empty. -/
def resolvedType (name : String) (cfg : SourceConfig) : String :=
  if cfg.«Type» = "" then name else cfg.«Type»

/-- The result of Create equals the body run on the config with the
defaulted type written in (and all other fields unchanged). -/
theorem Create_result_eq (cs : List (String × DriverConstructor)) (name : String)
    (cfg : SourceConfig) :
    (Create cs name cfg).result =
      createResult cs ⟨resolvedType name cfg, cfg.Destinations, cfg.Collections, cfg.Config⟩ := by
  by_cases h : cfg.«Type» = "" <;> simp [Create, resolvedType, h]

/-- Normalization of a collection list fails with the missing-name
error at the first structured entry without a name, provided every
earlier entry normalizes. -/
theorem parseCollections_missing_name (pre : List CollectionValue) (m : GoMap)
    (post : List CollectionValue)
    (hpre : ∀ v ∈ pre, parseOk v = true)
    (hname : getStringParameter m collectionNameField = "") :
    parseCollections (pre ++ CollectionValue.map m :: post) =
      Except.error CreateErr.missingCollectionName := by
  induction pre with
  | nil => simp [parseCollections, parseCollection, hname]
  | cons v pre ih =>
    have hv : parseOk v = true := hpre v (by simp)
    have hrest : ∀ v₂ ∈ pre, parseOk v₂ = true := fun v₂ hm => hpre v₂ (by simp [hm])
    cases hp : parseCollection v with
    | error e => simp [parseOk, hp] at hv
    | ok c => simp [parseCollections, hp, ih hrest]

/-- Claim C7: a source with an empty (normalized) collection list, an
empty destination list, or a structured collection entry with a missing
name fails Create with the corresponding validation error; a source
whose resolved type has no registered constructor fails with the
unknown-source-type error; and under initDrivers a failing source is
absent from a freshly built registry while every other source of the
same payload registers normally. -/
theorem c7_validation_and_isolation :
    (∀ (cs : List (String × DriverConstructor)) (name : String) (cfg : SourceConfig),
      cfg.Collections = [] →
      (Create cs name cfg).result = Except.error CreateErr.emptyCollections) ∧
    (∀ (cs : List (String × DriverConstructor)) (name : String) (cfg : SourceConfig)
        (cols : List Collection),
      parseCollections cfg.Collections = Except.ok cols → cols ≠ [] →
      cfg.Destinations = [] →
      (Create cs name cfg).result = Except.error CreateErr.emptyDestinations) ∧
    (∀ (cs : List (String × DriverConstructor)) (name : String) (cfg : SourceConfig)
        (pre : List CollectionValue) (m : GoMap) (post : List CollectionValue),
      cfg.Collections = pre ++ CollectionValue.map m :: post →
      (∀ v ∈ pre, parseOk v = true) →
      getStringParameter m collectionNameField = "" →
      (Create cs name cfg).result = Except.error CreateErr.missingCollectionName) ∧
    (∀ (cs : List (String × DriverConstructor)) (name : String) (cfg : SourceConfig)
        (cols : List Collection),
      parseCollections cfg.Collections = Except.ok cols → cols ≠ [] →
      cfg.Destinations ≠ [] →
      cs.lookup (resolvedType name cfg) = none →
      (Create cs name cfg).result = Except.error CreateErr.unknownSourceType) ∧
    (∀ (cs : List (String × DriverConstructor)) (configs : List (String × SourceConfig))
        (n : String) (cfg : SourceConfig) (e : CreateErr),
      (configs.map Prod.fst).Nodup → (n, cfg) ∈ configs →
      (Create cs n cfg).result = Except.error e →
      (initDrivers cs [] configs).lookup n = none) ∧
    (∀ (cs : List (String × DriverConstructor)) (configs : List (String × SourceConfig))
        (n : String) (cfg : SourceConfig) (d : List (String × Driver)),
      (configs.map Prod.fst).Nodup → (n, cfg) ∈ configs →
      (Create cs n cfg).result = Except.ok d →
      (initDrivers cs [] configs).lookup n = some ⟨d, cfg.Destinations⟩) := by
  refine ⟨?_, ?_, ?_, ?_, ?_, ?_⟩
  · intro cs name cfg hcols
    rw [Create_result_eq]
    simp [createResult, hcols, parseCollections]
  · intro cs name cfg cols hp hne hd
    rw [Create_result_eq]
    have hlen : cols.length ≠ 0 := by
      intro h
      exact hne (List.length_eq_zero.mp h)
    simp [createResult, hp, hd, hlen]
  · intro cs name cfg pre m post hcols hpre hname
    rw [Create_result_eq]
    simp [createResult, hcols, parseCollections_missing_name pre m post hpre hname]
  · intro cs name cfg cols hp hne hd hlk
    rw [Create_result_eq]
    have hlen : cols.length ≠ 0 := by
      intro h
      exact hne (List.length_eq_zero.mp h)
    have hdlen : cfg.Destinations.length ≠ 0 := by
      intro h
      exact hd (List.length_eq_zero.mp h)
    simp [createResult, hp, hlen, hdlen, hlk]
  · intro cs configs n cfg e hnd hmem herr
    have := initDrivers_lookup_of_create_err cs [] configs n cfg e hnd hmem herr
    simpa using this
  · intro cs configs n cfg d hnd hmem hok
    exact initDrivers_lookup_of_create_ok cs [] configs n cfg d hnd hmem hok

/-- Closed instance of claim C7: in one payload, "crm" (no
destinations) fails with the empty-destinations validation error and is
absent from the freshly built registry, "nodrv" (unregistered type)
fails with the unknown-source-type error and is absent, while
"postgres" registers normally. -/
theorem c7_witness :
    (Create [("postgres", fun _ _ => Except.ok 1)] "crm"
        ⟨"postgres", [], [CollectionValue.str "contacts"], []⟩).result =
      Except.error CreateErr.emptyDestinations ∧
    (Create [("postgres", fun _ _ => Except.ok 1)] "nodrv"
        ⟨"", ["d"], [CollectionValue.str "c"], []⟩).result =
      Except.error CreateErr.unknownSourceType ∧
    (initDrivers [("postgres", fun _ _ => Except.ok 1)] []
        [("crm", ⟨"postgres", [], [CollectionValue.str "contacts"], []⟩),
         ("nodrv", ⟨"", ["d"], [CollectionValue.str "c"], []⟩),
         ("postgres", ⟨"", ["d"], [CollectionValue.str "c"], []⟩)]).lookup "crm" = none ∧
    (initDrivers [("postgres", fun _ _ => Except.ok 1)] []
        [("crm", ⟨"postgres", [], [CollectionValue.str "contacts"], []⟩),
         ("nodrv", ⟨"", ["d"], [CollectionValue.str "c"], []⟩),
         ("postgres", ⟨"", ["d"], [CollectionValue.str "c"], []⟩)]).lookup "nodrv" = none ∧
    (initDrivers [("postgres", fun _ _ => Except.ok 1)] []
        [("crm", ⟨"postgres", [], [CollectionValue.str "contacts"], []⟩),
         ("nodrv", ⟨"", ["d"], [CollectionValue.str "c"], []⟩),
         ("postgres", ⟨"", ["d"], [CollectionValue.str "c"], []⟩)]).lookup "postgres" =
      some ⟨[("c", 1)], ["d"]⟩ := by
  refine ⟨?_, ?_, ?_, ?_, ?_⟩
  · exact c7_validation_and_isolation.2.1 [("postgres", fun _ _ => Except.ok 1)] "crm"
      ⟨"postgres", [], [CollectionValue.str "contacts"], []⟩
      [⟨"contacts", "contacts", "", none⟩] (by decide) (by decide) (by decide)
  · exact c7_validation_and_isolation.2.2.2.1 [("postgres", fun _ _ => Except.ok 1)] "nodrv"
      ⟨"", ["d"], [CollectionValue.str "c"], []⟩
      [⟨"c", "c", "", none⟩] (by decide) (by decide) (by decide) rfl
  · exact c7_validation_and_isolation.2.2.2.2.1 [("postgres", fun _ _ => Except.ok 1)]
      [("crm", ⟨"postgres", [], [CollectionValue.str "contacts"], []⟩),
       ("nodrv", ⟨"", ["d"], [CollectionValue.str "c"], []⟩),
       ("postgres", ⟨"", ["d"], [CollectionValue.str "c"], []⟩)]
      "crm" ⟨"postgres", [], [CollectionValue.str "contacts"], []⟩
      CreateErr.emptyDestinations (by decide) (by decide) (by decide)
  · exact c7_validation_and_isolation.2.2.2.2.1 [("postgres", fun _ _ => Except.ok 1)]
      [("crm", ⟨"postgres", [], [CollectionValue.str "contacts"], []⟩),
       ("nodrv", ⟨"", ["d"], [CollectionValue.str "c"], []⟩),
       ("postgres", ⟨"", ["d"], [CollectionValue.str "c"], []⟩)]
      "nodrv" ⟨"", ["d"], [CollectionValue.str "c"], []⟩
      CreateErr.unknownSourceType (by decide) (by decide) (by decide)
  · exact c7_validation_and_isolation.2.2.2.2.2 [("postgres", fun _ _ => Except.ok 1)]
      [("crm", ⟨"postgres", [], [CollectionValue.str "contacts"], []⟩),
       ("nodrv", ⟨"", ["d"], [CollectionValue.str "c"], []⟩),
       ("postgres", ⟨"", ["d"], [CollectionValue.str "c"], []⟩)]
      "postgres" ⟨"", ["d"], [CollectionValue.str "c"], []⟩
      [("c", 1)] (by decide) (by decide) (by decide)

/-! ## Claim C9 -/

/-- Claim C9: the DAY granularity formats through the Go layout
2006-01-01, whose chunks render the year and then the month twice and
never the day: concretely, May 17 2020 renders as "2020-05-05", and any
two times in the same calendar year and month format identically even
when they fall on different days. -/
theorem c9_day_layout_ignores_day :
    Format Granularity.DAY ⟨2020, 5, 17⟩ = "2020-05-05" ∧
    ∀ (t₁ t₂ : GoTime), t₁.year = t₂.year → t₁.month = t₂.month →
      Format Granularity.DAY t₁ = Format Granularity.DAY t₂ := by
  constructor
  · decide
  · intro t₁ t₂ h₁ h₂
    obtain ⟨y₁, m₁, d₁⟩ := t₁
    obtain ⟨y₂, m₂, d₂⟩ := t₂
    simp only at h₁ h₂
    subst h₁
    subst h₂
    rfl

/-- Closed instance of claim C9: July 3 and July 28 of 2021 format to
the same DAY string. -/
theorem c9_witness :
    (GoTime.mk 2021 7 3).year = (GoTime.mk 2021 7 28).year ∧
    (GoTime.mk 2021 7 3).month = (GoTime.mk 2021 7 28).month ∧
    Format Granularity.DAY ⟨2021, 7, 3⟩ = Format Granularity.DAY ⟨2021, 7, 28⟩ := by
  refine ⟨rfl, rfl, ?_⟩
  exact c9_day_layout_ignores_day.2 ⟨2021, 7, 3⟩ ⟨2021, 7, 28⟩ rfl rfl

/-! ## Claim C10 -/

/-- Claim C10: when the config's type field is empty, Create behaves
exactly as if the registry name had been configured as the type — the
name is written back into the passed-in config and the whole outcome
(constructor resolution included) equals that of the explicitly typed
config, so a source whose map key matches a registered driver type
needs no type field. -/
theorem c10_type_defaults_to_name (cs : List (String × DriverConstructor))
    (name : String) (cfg : SourceConfig) (h : cfg.«Type» = "") :
    (Create cs name cfg).finalConfig.«Type» = name ∧
    Create cs name cfg = Create cs name { cfg with «Type» := name } := by
  obtain ⟨t, ds, colsv, conf⟩ := cfg
  simp only at h
  subst h
  constructor
  · simp [Create]
  · by_cases hn : name = "" <;> simp [Create, hn]

/-- Closed instance of claim C10: the source "postgres" carries no type
field, yet its constructor resolves under its registry name and the
name is written back into the config. -/
theorem c10_witness :
    (⟨"", ["d"], [CollectionValue.str "c"], []⟩ : SourceConfig).«Type» = "" ∧
    (Create [("postgres", fun _ _ => Except.ok 1)] "postgres"
        ⟨"", ["d"], [CollectionValue.str "c"], []⟩).finalConfig.«Type» = "postgres" ∧
    (Create [("postgres", fun _ _ => Except.ok 1)] "postgres"
        ⟨"", ["d"], [CollectionValue.str "c"], []⟩).result = Except.ok [("c", 1)] := by
  refine ⟨rfl, ?_, by decide⟩
  exact (c10_type_defaults_to_name [("postgres", fun _ _ => Except.ok 1)] "postgres"
    ⟨"", ["d"], [CollectionValue.str "c"], []⟩ rfl).1

end EventNative
